import Mathlib

/-!
Verification development for the OmniAD anomaly-detection wrapper library.

The Python source is shallowly embedded: detector instances become an explicit
state record, mutating methods become functions returning the final state
together with either the returned value or the exception raised (partial
mutations performed before an exception are kept in the returned state, as in
Python), and numeric values are rationals.
-/

namespace OmniAD

/-- The exception kinds the embedded operations can raise, mirroring the
exception taxonomy of `omniad.core.exceptions` plus the builtin Python
exceptions the code raises or propagates.  `backendError` stands for an
arbitrary exception escaping a backend's own `fit`. -/
inductive PyErr where
  | modelNotFitted
  | configError
  | dataFormatError
  | valueError
  | fileNotFound
  | typeError
  | backendError
  deriving DecidableEq, Repr

/-- Python values as they appear in keyword-argument dictionaries: numbers,
booleans, strings, None and (one level of) nested dicts. -/
inductive PyVal where
  | none
  | bool (b : Bool)
  | int (n : Int)
  | rat (q : Rat)
  | str (s : String)
  | dict (d : List (String × PyVal))
  deriving BEq, Repr

/-- Numeric coercion used when the code computes `1 - contamination`:
ints, rationals and booleans are numbers, everything else raises TypeError. -/
def PyVal.asRat? : PyVal → Option Rat
  | .int n => some (n : Rat)
  | .rat q => some q
  | .bool b => some (if b then 1 else 0)
  | _ => Option.none

/-- Dictionary lookup (first binding wins). -/
def dictFind (d : List (String × PyVal)) (k : String) : Option PyVal :=
  (d.find? (fun p => p.1 = k)).map (fun p => p.2)

/-- Remove a key from a dictionary (`dict.pop(k, None)`). -/
def dictRemove (d : List (String × PyVal)) (k : String) : List (String × PyVal) :=
  d.filter (fun p => ¬ p.1 = k)

/-- Set a key in a dictionary (`d[k] = v`). -/
def dictSet (d : List (String × PyVal)) (k : String) (v : PyVal) :
    List (String × PyVal) :=
  dictRemove d k ++ [(k, v)]

/-- `d.update(upd)`: every key of `upd` overwrites the corresponding key of
`d`, other keys of `d` are kept. -/
def dictUpdate (d upd : List (String × PyVal)) : List (String × PyVal) :=
  upd.foldl (fun acc p => dictSet acc p.1 p.2) d

/-- A fitted (or failed-to-fit) backend object, as produced by calling the
backend class.  `initParams` records the keyword arguments the constructor
received; `fitRaises` tells whether the backend's own `fit` raises on the
given validated data; the two optional scoring functions model the presence
or absence of the `score_samples` / `decision_function` methods. -/
structure Backend where
  initParams : List (String × PyVal)
  fitRaises : List (List Rat) → Bool
  scoreSamples? : Option (List (List Rat) → List Rat)
  decisionFunction? : Option (List (List Rat) → List Rat)

/-- The class-level configuration of a concrete sklearn-style adapter:
its class name, `_backend_cls` (None when not configured; calling it may
raise), `_param_mapping` and `_invert_score`. -/
structure AdapterCls where
  name : String
  backendCls? : Option (List (String × PyVal) → Except PyErr Backend)
  paramMapping : List (String × String)
  invertScore : Bool

/-- The instance state of a detector: the `__dict__` of a
`BaseSklearnAdapter` instance (named core fields plus the remaining
subclass attributes in `attrs`) together with its class configuration. -/
structure DetectorState where
  cls : AdapterCls
  contamination : PyVal
  backendModel : Option Backend
  threshold : Option Rat
  isFitted : Bool
  backend_options : List (String × PyVal)
  kwargs : List (String × PyVal)
  attrs : List (String × PyVal)

/-- `getattr(self, n)` restricted to instance attributes: the named core
fields and the subclass attribute bag. -/
def DetectorState.getattr? (st : DetectorState) (n : String) : Option PyVal :=
  if n = "contamination" then some st.contamination
  else if n = "backend_options" then some (.dict st.backend_options)
  else if n = "kwargs" then some (.dict st.kwargs)
  else if n = "threshold_" then some (st.threshold.elim .none .rat)
  else if n = "_is_fitted" then some (.bool st.isFitted)
  else dictFind st.attrs n

/-- `BaseSklearnAdapter.__init__` (via `BaseDetector.__init__`): stores
contamination, clears the backend handle, threshold and fitted flag, reads
`backend_options` out of the kwargs (a non-dict value there is idealised to
the empty dict; no claim exercises that case) and keeps the whole kwargs
dict.  `attrs` are the attributes a concrete subclass sets before calling
`super().__init__`. -/
def initState (cls : AdapterCls) (contamination : PyVal)
    (kwargs attrs : List (String × PyVal)) : DetectorState :=
  { cls := cls
    contamination := contamination
    backendModel := Option.none
    threshold := Option.none
    isFitted := false
    backend_options :=
      match dictFind kwargs ("backend_options") with
      | some (.dict d) => d
      | _ => []
    kwargs := kwargs
    attrs := attrs }

/-- Raw input data before validation: a 1-D or 2-D array-like whose cells are
finite numbers (`some q`) or non-finite values such as NaN/Inf (`none`). -/
inductive Input where
  | oneD (xs : List (Option Rat))
  | twoD (xss : List (List (Option Rat)))

/-- Number of samples of a raw input. -/
def numSamples : Input → Nat
  | .oneD xs => xs.length
  | .twoD xss => xss.length

/-- A row is valid when every cell is finite. -/
def seqRow (row : List (Option Rat)) : Option (List Rat) := row.mapM id

/-- The 2-D part of `validate_input` / sklearn `check_array`: all cells
finite, at least one sample, at least one feature, rectangular shape. -/
def validate2d (xss : List (List (Option Rat))) :
    Except PyErr (List (List Rat)) :=
  match xss.mapM seqRow with
  | Option.none => .error .dataFormatError
  | some rows =>
    match rows with
    | [] => .error .dataFormatError
    | r :: rs =>
      if r.length = 0 then .error .dataFormatError
      else if rs.all (fun row => row.length = r.length) then .ok (r :: rs)
      else .error .dataFormatError

/-- `omniad.utils.validation.validate_input`: 1-D inputs are reshaped to a
single-feature column, then the array checks run; all failures surface as
`DataFormatError`. -/
def validateInput : Input → Except PyErr (List (List Rat))
  | .oneD xs => validate2d (xs.map (fun x => [x]))
  | .twoD xss => validate2d xss

/-- Insert into a sorted list, keeping it sorted. -/
def insertSorted (x : Rat) : List Rat → List Rat
  | [] => [x]
  | y :: ys => if x ≤ y then x :: y :: ys else y :: insertSorted x ys

/-- Sort a list of rationals ascending (insertion sort). -/
def sortRats (xs : List Rat) : List Rat := xs.foldr insertSorted []

/-- `np.quantile(xs, q)` with the default linear interpolation: sort
ascending, take the virtual index `q * (n - 1)` and interpolate linearly
between its two neighbouring order statistics.  `none` models the exception
np.quantile raises on an empty array or a quantile outside `[0, 1]`. -/
def npQuantile (xs : List Rat) (q : Rat) : Option Rat :=
  if xs.isEmpty ∨ q < 0 ∨ 1 < q then Option.none
  else
    let s := sortRats xs
    let n := s.length
    let h : Rat := q * ((n : Rat) - 1)
    let i : Nat := h.floor.toNat
    let lo := s.getD i 0
    let hi := s.getD (i + 1) lo
    some (lo + (h - (i : Rat)) * (hi - lo))

/-- `BaseSklearnAdapter._fit_backend` parameter assembly: start from a copy
of `self.kwargs`, pop `backend_options`, overwrite with the mapped attribute
values of `_param_mapping`, then overwrite with `self.backend_options`. -/
def DetectorState.mergeParams (st : DetectorState) : List (String × PyVal) :=
  let ps := dictRemove st.kwargs ("backend_options")
  let ps := st.cls.paramMapping.foldl
    (fun acc pm =>
      match st.getattr? pm.1 with
      | some v => dictSet acc pm.2 v
      | Option.none => acc) ps
  dictUpdate ps st.backend_options

/-- `BaseSklearnAdapter._fit_backend`: validate, require a configured
backend class, assemble parameters, construct the backend (the assignment to
`self._backend_model` happens before `.fit`, so a raising `.fit` leaves the
freshly constructed backend stored), fit.  Returns the possibly-mutated
state and the raised exception, if any. -/
def DetectorState.fitBackend (st : DetectorState) (X : Input) :
    DetectorState × Option PyErr :=
  match validateInput X with
  | .error e => (st, some e)
  | .ok Xv =>
    match st.cls.backendCls? with
    | Option.none => (st, some .configError)
    | some mkB =>
      match mkB st.mergeParams with
      | .error e => (st, some e)
      | .ok b =>
        let st1 := { st with backendModel := some b }
        if b.fitRaises Xv then (st1, some .backendError) else (st1, Option.none)

/-- Negate the native scores when the inversion flag is set. -/
def applyInvert (inv : Bool) (s : List Rat) : List Rat :=
  if inv then s.map (fun x => -x) else s

/-- `BaseSklearnAdapter.predict_score`: validate, access the backend handle
through the `backend_model` property (raises `ModelNotFittedError` when the
handle is null), use `score_samples` when present, else `decision_function`,
else raise `ConfigError`; finally negate iff `_invert_score`. -/
def DetectorState.predictScore (st : DetectorState) (X : Input) :
    Except PyErr (List Rat) :=
  match validateInput X with
  | .error e => .error e
  | .ok Xv =>
    match st.backendModel with
    | Option.none => .error .modelNotFitted
    | some b =>
      match b.scoreSamples?, b.decisionFunction? with
      | some f, _ => .ok (applyInvert st.cls.invertScore (f Xv))
      | Option.none, some g => .ok (applyInvert st.cls.invertScore (g Xv))
      | Option.none, Option.none => .error .configError

/-- `BaseDetector.predict`: fitted-flag guard, scores, threshold selection
(argument first, else the fitted threshold, else ValueError), then strict
binarization `score > threshold`. -/
def DetectorState.predict (st : DetectorState) (X : Input)
    (threshold : Option Rat) : Except PyErr (List Int) :=
  if st.isFitted = false then .error .modelNotFitted
  else
    match st.predictScore X with
    | .error e => .error e
    | .ok scores =>
      match threshold.orElse (fun _ => st.threshold) with
      | Option.none => .error .valueError
      | some t => .ok (scores.map (fun s => if t < s then (1 : Int) else 0))

/-- `BaseDetector.fit`: seed hook (a no-op for the sklearn adapters),
backend fitting, in-sample scores, threshold as the `(1 - contamination)`
quantile, then the fitted flag; returns `self`.  On an exception the state
mutated so far is returned together with the error. -/
def DetectorState.fit (st : DetectorState) (X : Input) :
    DetectorState × Except PyErr DetectorState :=
  match st.fitBackend X with
  | (st1, some e) => (st1, .error e)
  | (st1, Option.none) =>
    match st1.predictScore X with
    | .error e => (st1, .error e)
    | .ok trainScores =>
      match st1.contamination.asRat? with
      | Option.none => (st1, .error .typeError)
      | some c =>
        match npQuantile trainScores (1 - c) with
        | Option.none => (st1, .error .valueError)
        | some q =>
          let st2 := { st1 with threshold := some q, isFitted := true }
          (st2, .ok st2)

/-- The `metadata.json` part of a saved container. -/
structure MetaPart where
  className : String
  contamination : PyVal
  threshold : Option Rat
  version : String

/-- The `attributes.pkl` part: the instance `__dict__` minus the backend
handle. -/
structure Attributes where
  contamination : PyVal
  threshold : Option Rat
  isFitted : Bool
  backend_options : List (String × PyVal)
  kwargs : List (String × PyVal)
  attrs : List (String × PyVal)

/-- An unpacked ZIP container.  `attributes?`/`backendBlob` are `none` when
the corresponding file is absent from the archive (load is callable on any
archive path, not only ones produced by save). -/
structure Archive where
  meta : MetaPart
  attributes? : Option Attributes
  backendBlob : Option Backend

/-- `BaseDetector.save`: builds metadata, delegates to `_save_backend`
(which reads the `backend_model` property and hence raises
`ModelNotFittedError` on a null handle, in which case the scratch directory
is discarded and no archive is produced), dumps the attribute bag, packs. -/
def DetectorState.save (st : DetectorState) : Except PyErr Archive :=
  match st.backendModel with
  | Option.none => .error .modelNotFitted
  | some b =>
    .ok { meta := { className := st.cls.name
                    contamination := st.contamination
                    threshold := st.threshold
                    version := "0.1.0" }
          attributes? := some { contamination := st.contamination
                                threshold := st.threshold
                                isFitted := st.isFitted
                                backend_options := st.backend_options
                                kwargs := st.kwargs
                                attrs := st.attrs }
          backendBlob := some b }

/-- Merge an attribute bag as `self.__dict__.update(attributes)` does for
the unnamed subclass attributes: archived keys overwrite, other existing
keys survive. -/
def updateAttrs (cur upd : List (String × PyVal)) : List (String × PyVal) :=
  dictUpdate cur upd

/-- `BaseDetector.load` on an already unpacked archive: read
`attributes.pkl` (missing file raises), `self.__dict__.update(attributes)`
(which overwrites the fitted flag, threshold, contamination and kwargs with
the archived values but leaves `_backend_model` untouched), then
`_load_backend` (missing `backend/model.joblib` raises FileNotFoundError),
then set the fitted flag and return `self`.  The first component is the
state after whatever mutations happened before an exception. -/
def DetectorState.load (st : DetectorState) (ar : Archive) :
    DetectorState × Except PyErr DetectorState :=
  match ar.attributes? with
  | Option.none => (st, .error .fileNotFound)
  | some a =>
    let st1 := { st with contamination := a.contamination
                         threshold := a.threshold
                         isFitted := a.isFitted
                         backend_options := a.backend_options
                         kwargs := a.kwargs
                         attrs := updateAttrs st.attrs a.attrs }
    match ar.backendBlob with
    | Option.none => (st1, .error .fileNotFound)
    | some b =>
      let st2 := { st1 with backendModel := some b, isFitted := true }
      (st2, .ok st2)

/-- Errors the factory `get_detector` can raise.  The `configError` carries
the list of available algorithm names interpolated into its message
(`Available algorithms: {available}` with `available = list(_REGISTRY.keys())`);
the import and attribute errors carry the module path and the name that
failed to resolve. -/
inductive FactoryErr where
  | configError (available : List String)
  | importError (modulePath : String) (algoName : String)
  | attributeError (modulePath : String) (className : String)
  deriving Repr

/-- `omniad.registry._REGISTRY`: algorithm name → module path. -/
def REGISTRY : List (String × String) :=
  [("IsolationForest", "omniad.algos.tabular.iforest")]

/-- Stand-in for the external `sklearn.ensemble.IsolationForest` class: its
constructor records the received parameters and it exposes both
`score_samples` and `decision_function`.  The numeric behaviour of the
external library is opaque to this repository and irrelevant to the claims,
which quantify over backends; the score values here are placeholders. -/
def isolationForestBackendCls (ps : List (String × PyVal)) :
    Except PyErr Backend :=
  .ok { initParams := ps
        fitRaises := fun _ => false
        scoreSamples? := some (fun m => m.map (fun _ => 0))
        decisionFunction? := some (fun m => m.map (fun _ => 0)) }

/-- The class-level configuration of `IsolationForestAdapter`:
`_backend_cls = IsolationForest`, empty `_param_mapping`, inherited
`_invert_score = True`. -/
def isolationForestCls : AdapterCls :=
  { name := "IsolationForestAdapter"
    backendCls? := some isolationForestBackendCls
    paramMapping := []
    invertScore := true }

/-- `IsolationForestAdapter.__init__`: bind the declared keyword parameters
(with their defaults), set the three instance attributes, then call
`super().__init__` with contamination plus the three declared parameters and
any extra keyword arguments. -/
def isolationForestAdapterInit (kwargs : List (String × PyVal)) :
    DetectorState :=
  let nEst := (dictFind kwargs ("n_estimators")).getD (.int 100)
  let contamination := (dictFind kwargs ("contamination")).getD (.rat (1/10))
  let nJobs := (dictFind kwargs ("n_jobs")).getD (.int (-1))
  let randomState := (dictFind kwargs ("random_state")).getD .none
  let extra := dictRemove (dictRemove (dictRemove (dictRemove kwargs
    ("n_estimators")) ("contamination")) ("n_jobs")) ("random_state")
  let kw2 := dictUpdate
    [("n_estimators", nEst), ("n_jobs", nJobs), ("random_state", randomState)]
    extra
  initState isolationForestCls contamination kw2
    [("n_estimators", nEst), ("n_jobs", nJobs), ("random_state", randomState)]

/-- A loadable module: `getattr` over the adapter classes it defines, each
being a constructor from keyword arguments to a detector instance. -/
structure PyModule where
  getattr? : String → Option (List (String × PyVal) → DetectorState)

/-- `importlib.import_module` over the modules of this repository (the
repository declares its dependencies, so the registered module imports
successfully). -/
def importModule (path : String) : Option PyModule :=
  if path = "omniad.algos.tabular.iforest" then
    some { getattr? := fun c =>
      if c = "IsolationForestAdapter" then some isolationForestAdapterInit
      else Option.none }
  else Option.none

/-- `omniad.get_detector`: registry lookup (ConfigError listing
`list(_REGISTRY.keys())` when absent), module import, class lookup under the
`{name}Adapter` convention, instantiation with the given keyword
arguments. -/
def get_detector (name : String) (kwargs : List (String × PyVal)) :
    Except FactoryErr DetectorState :=
  match REGISTRY.find? (fun p => p.1 = name) with
  | Option.none => .error (.configError (REGISTRY.map (fun p => p.1)))
  | some entry =>
    match importModule entry.2 with
    | Option.none => .error (.importError entry.2 name)
    | some md =>
      match md.getattr? (name ++ "Adapter") with
      | Option.none => .error (.attributeError entry.2 (name ++ "Adapter"))
      | some ctor => .ok (ctor kwargs)

/-- A generic well-behaved backend used for concrete witnesses: its scoring
method `score_samples` returns the per-row sums. -/
def demoBackend : Backend :=
  { initParams := []
    fitRaises := fun _ => false
    scoreSamples? := some (fun m => m.map (fun row => row.foldl (· + ·) 0))
    decisionFunction? := Option.none }

/-- A generic well-behaved backend class used for concrete witnesses: the
constructor records its parameters and builds a `demoBackend`. -/
def demoBackendCls (ps : List (String × PyVal)) : Except PyErr Backend :=
  .ok { demoBackend with initParams := ps }

/-- A generic adapter class over `demoBackendCls`, with the inherited
`_invert_score = True` and no parameter mapping. -/
def demoCls : AdapterCls :=
  { name := "DemoAdapter"
    backendCls? := some demoBackendCls
    paramMapping := []
    invertScore := true }

/-- A backend class whose instances raise inside their own `fit` (as the
external sklearn estimators do on invalid hyperparameters). -/
def failFitBackendCls (ps : List (String × PyVal)) : Except PyErr Backend :=
  .ok { initParams := ps
        fitRaises := fun _ => true
        scoreSamples? := Option.none
        decisionFunction? := Option.none }

/-- An adapter class over the backend whose `fit` raises. -/
def failFitCls : AdapterCls :=
  { name := "FailingAdapter"
    backendCls? := some failFitBackendCls
    paramMapping := []
    invertScore := true }

/-- The detector states reachable through the public lifecycle: construction
of any adapter, and the states left behind by `fit` and `load` calls
(successful or raising; `predict`, `predict_score` and `save` do not mutate
the instance). -/
inductive Reachable : DetectorState → Prop where
  | construct (cls : AdapterCls) (contamination : PyVal)
      (kwargs attrs : List (String × PyVal)) :
      Reachable (initState cls contamination kwargs attrs)
  | fitStep {st : DetectorState} (X : Input) :
      Reachable st → Reachable (st.fit X).1
  | loadStep {st : DetectorState} (ar : Archive) :
      Reachable st → Reachable (st.load ar).1

/-- A freshly constructed generic adapter instance (never fit, never
loaded). -/
def freshDemo : DetectorState := initState demoCls (.rat (1/10)) [] []

/-- The adapter class of the C1 failing input: `_param_mapping` maps the
instance attribute `alpha` to the backend parameter name `p`. -/
def c1Cls : AdapterCls :=
  { name := "C1Adapter"
    backendCls? := some demoBackendCls
    paramMapping := [("alpha", "p")]
    invertScore := true }

/-- The C1 failing input: the adapter declares `kwargs = {p: 2}` while its
attribute `alpha = 1` is mapped to the same backend name `p`. -/
def c1State : DetectorState :=
  initState c1Cls (.rat (1/10)) [("p", .int 2)] [("alpha", .int 1)]

/-- The archive of the C2 counterexample: its `attributes.pkl` records a
fitted detector (`_is_fitted = True`, a threshold), but the
`backend/model.joblib` file is absent, so `_load_backend` raises
`FileNotFoundError`. -/
def c2Archive : Archive :=
  { meta := { className := "DemoAdapter"
              contamination := .rat (1/10)
              threshold := some 0
              version := "0.1.0" }
    attributes? := some { contamination := .rat (1/10)
                          threshold := some 0
                          isFitted := true
                          backend_options := []
                          kwargs := []
                          attrs := [] }
    backendBlob := Option.none }

/-- The two fitted-state invariants of the data model: `threshold_` is
non-null iff `_is_fitted`, and `_backend_model` is non-null iff
`_is_fitted`. -/
def WrapperInv (st : DetectorState) : Prop :=
  st.threshold.isSome = st.isFitted ∧ st.backendModel.isSome = st.isFitted

/-- The C4 counterexample state: a freshly constructed detector over a
backend whose own `fit` raises, after the raising `fit` call. -/
def c4State : DetectorState :=
  ((initState failFitCls (.rat (1/10)) [] []).fit (.twoD [[some 1]])).1

/-- The concrete training input of the demo witnesses. -/
def demoFitX : Input := .oneD [some 1, some 2, some 3]

/-- The detector state produced by fitting the fresh demo adapter on
`demoFitX`: scores are `[-1, -2, -3]`, so the `0.9` quantile of the sorted
scores is `-6/5`. -/
def demoFitted : DetectorState :=
  { cls := demoCls
    contamination := .rat (1/10)
    backendModel := some demoBackend
    threshold := some (-(6/5))
    isFitted := true
    backend_options := []
    kwargs := []
    attrs := [] }

/-- The archive of the C6 counterexample: archived attributes of a fitted
detector that carries no threshold, with the backend part missing. -/
def c6Archive : Archive :=
  { meta := { className := "DemoAdapter"
              contamination := .rat (1/10)
              threshold := Option.none
              version := "0.1.0" }
    attributes? := some { contamination := .rat (1/10)
                          threshold := Option.none
                          isFitted := true
                          backend_options := []
                          kwargs := []
                          attrs := [] }
    backendBlob := Option.none }

/-- The C6 counterexample detector: a fresh demo adapter after loading
`c6Archive` (the load raised in the backend restore, leaving the fitted
flag true, the threshold null and the backend handle null). -/
def c6State : DetectorState := (freshDemo.load c6Archive).1

/-- The 2-D validation step only ever raises `DataFormatError`. -/
lemma validate2d_error_eq {xss : List (List (Option Rat))} {e : PyErr}
    (h : validate2d xss = .error e) : e = .dataFormatError := by
  unfold validate2d at h
  split at h
  · simp_all
  · split at h
    · simp_all
    · split at h
      · simp_all
      · split at h <;> simp_all

/-- Input validation only ever raises `DataFormatError`. -/
lemma validateInput_error_eq {X : Input} {e : PyErr}
    (h : validateInput X = .error e) : e = .dataFormatError := by
  cases X with
  | oneD xs => exact validate2d_error_eq h
  | twoD xss => exact validate2d_error_eq h

/-- `predict_score` reads the backend through the `backend_model` property,
so a successful call implies the handle is non-null. -/
lemma predictScore_ok_backend {st : DetectorState} {X : Input} {s : List Rat}
    (h : st.predictScore X = .ok s) : st.backendModel.isSome = true := by
  unfold DetectorState.predictScore at h
  split at h
  · simp_all
  · split at h <;> simp_all

/-- `predict_score` never raises `ValueError`. -/
lemma predictScore_ne_valueError (st : DetectorState) (X : Input) :
    st.predictScore X ≠ .error .valueError := by
  intro h
  unfold DetectorState.predictScore at h
  split at h
  · rename_i e he
    have := validateInput_error_eq he
    simp_all
  · split at h
    · simp_all
    · split at h <;> simp_all

/-- `predict_score` depends only on the backend handle and the class
configuration. -/
lemma predictScore_congr (stA stB : DetectorState) (X : Input)
    (hb : stB.backendModel = stA.backendModel) (hc : stB.cls = stA.cls) :
    stB.predictScore X = stA.predictScore X := by
  unfold DetectorState.predictScore
  rw [hb, hc]

/-- `_fit_backend` never touches `contamination`. -/
lemma fitBackend_contamination (st : DetectorState) (X : Input) :
    (st.fitBackend X).1.contamination = st.contamination := by
  unfold DetectorState.fitBackend
  split
  · rfl
  · split
    · rfl
    · split
      · rfl
      · split <;> rfl

/-- Characterization of a successful `fit` call: the backend fitting
succeeded, the in-sample scores were computed, the quantile existed, and the
final state is the backend-fitted state with the threshold and fitted flag
set; `fit` returns that very state. -/
lemma fit_ok_spec {st st' : DetectorState} {X : Input}
    (h : (st.fit X).2 = .ok st') :
    ∃ (st1 : DetectorState) (scores : List Rat) (c q : Rat),
      st.fitBackend X = (st1, Option.none) ∧
      st1.predictScore X = .ok scores ∧
      st1.contamination.asRat? = some c ∧
      npQuantile scores (1 - c) = some q ∧
      st' = { st1 with threshold := some q, isFitted := true } ∧
      (st.fit X).1 = st' := by
  obtain ⟨stF, hf⟩ : ∃ stF, st.fit X = (stF, Except.ok st') :=
    ⟨(st.fit X).1, by rw [← h]⟩
  have hfst : (st.fit X).1 = stF := by rw [hf]
  unfold DetectorState.fit at hf
  split at hf
  · simp at hf
  · rename_i st1 hfb
    split at hf
    · simp at hf
    · rename_i scores hps
      split at hf
      · simp at hf
      · rename_i c hc
        split at hf
        · simp at hf
        · rename_i q hq
          simp only [Prod.mk.injEq, Except.ok.injEq] at hf
          refine ⟨st1, scores, c, q, hfb, hps, hc, hq, hf.2.symm, ?_⟩
          rw [hfst, ← hf.1]
          exact hf.2

/-- `fit` never touches `contamination`, whether it succeeds or raises. -/
lemma fit_contamination (st : DetectorState) (X : Input) :
    (st.fit X).1.contamination = st.contamination := by
  have hfb := fitBackend_contamination st X
  unfold DetectorState.fit
  split
  · rename_i st1 e heq
    rw [heq] at hfb
    exact hfb
  · rename_i st1 heq
    rw [heq] at hfb
    split
    · exact hfb
    · split
      · exact hfb
      · split
        · exact hfb
        · exact hfb

/-- Claim C10: a detector whose backend handle is null (never fit, never
loaded) cannot be saved: `save` raises `ModelNotFittedError` through the
`backend_model` property inside `_save_backend`, and no archive is
produced. -/
theorem c10_save_unfitted (st : DetectorState)
    (h : st.backendModel = Option.none) :
    st.save = .error .modelNotFitted := by
  unfold DetectorState.save
  rw [h]

/-- Witness for C10 on a freshly constructed adapter instance. -/
theorem c10_save_unfitted_witness :
    freshDemo.backendModel = Option.none ∧
    freshDemo.save = Except.error PyErr.modelNotFitted :=
  ⟨rfl, c10_save_unfitted freshDemo rfl⟩

/-- Claim C1, evaluated at the failing input: the code's parameter assembly
passes the mapped attribute value (`p = 1`) to the backend even though the
adapter's declared keyword arguments contain `p = 2`; the mapped layer
overwrites the kwargs layer, contrary to the claimed precedence (and to the
code's own comment `Priority: backend_options > kwargs > mapped params`). -/
theorem c1_param_precedence_failing :
    dictFind c1State.kwargs ("p") = some (.int 2) ∧
    dictFind c1State.mergeParams ("p") = some (.int 1) := by
  constructor <;> rfl

/-- Counterexample to claim C2: loading `c2Archive` into a freshly
constructed detector makes `_load_backend` raise, yet after `load` returns
with that error the instance's fitted flag IS true — the attributes-restore
step already overwrote `_is_fitted` with the archived value. -/
theorem c2_counterexample :
    (freshDemo.load c2Archive).2 = Except.error PyErr.fileNotFound ∧
    (freshDemo.load c2Archive).1.isFitted = true := by
  constructor <;> rfl

/-- Claim C2 as amended: when the backend-restore step raises, the fitted
flag equals the flag recorded in the archived attributes (restored by the
attributes step) rather than being guaranteed false; the `load` method
itself assigns `true` to the flag only after both restores succeed. -/
theorem c2_load_fitted_flag (st : DetectorState) (ar : Archive)
    (a : Attributes) (ha : ar.attributes? = some a) :
    (ar.backendBlob = Option.none →
      (st.load ar).2 = .error .fileNotFound ∧
      (st.load ar).1.isFitted = a.isFitted) ∧
    (∀ b : Backend, ar.backendBlob = some b →
      (st.load ar).2 = .ok (st.load ar).1 ∧
      (st.load ar).1.isFitted = true) := by
  constructor
  · intro hb
    unfold DetectorState.load
    rw [ha, hb]
    exact ⟨rfl, rfl⟩
  · intro b hb
    unfold DetectorState.load
    rw [ha, hb]
    exact ⟨rfl, rfl⟩

/-- Witness for the amended C2 on a concrete archive whose backend part is
present: the load succeeds and sets the fitted flag. -/
theorem c2_load_fitted_flag_witness :
    (freshDemo.load { c2Archive with backendBlob := some demoBackend }).2 =
      .ok (freshDemo.load { c2Archive with backendBlob := some demoBackend }).1 ∧
    (freshDemo.load { c2Archive with backendBlob := some demoBackend }).1.isFitted
      = true :=
  (c2_load_fitted_flag freshDemo
    { c2Archive with backendBlob := some demoBackend } _ rfl).2 demoBackend rfl

/-- Counterexample to claim C4: `c4State` is reachable (construction
followed by a `fit` that raised inside the backend's own `fit`), yet its
backend handle is non-null while its fitted flag is false — the claimed
invariant `_backend_model` non-null iff `_is_fitted` fails there. -/
theorem c4_counterexample :
    Reachable c4State ∧
    c4State.backendModel.isSome = true ∧
    c4State.isFitted = false :=
  ⟨Reachable.fitStep (.twoD [[some 1]])
      (Reachable.construct failFitCls (.rat (1/10)) [] []),
    rfl, rfl⟩

/-- Claim C4 as amended: the two iff-invariants hold at construction, after
every successful `fit`, and after every successful `load` of an archive
saved from a state satisfying them; `fit` never mutates `contamination`
(and `predict`/`predict_score`/`save` never mutate the state at all), while
`load` replaces `contamination` with the archived construction-time value.
States reached through a raised `fit` or `load` can violate the
iff-invariants. -/
theorem c4_invariants :
    (∀ (cls : AdapterCls) (c : PyVal) (kw ats : List (String × PyVal)),
      WrapperInv (initState cls c kw ats) ∧
      (initState cls c kw ats).contamination = c) ∧
    (∀ (st st' : DetectorState) (X : Input),
      (st.fit X).2 = .ok st' → WrapperInv st') ∧
    (∀ (st : DetectorState) (X : Input),
      (st.fit X).1.contamination = st.contamination) ∧
    (∀ (st st0 st2 : DetectorState) (ar : Archive),
      WrapperInv st → st.save = .ok ar → (st0.load ar).2 = .ok st2 →
      WrapperInv st2 ∧ st2.contamination = st.contamination) := by
  refine ⟨?_, ?_, ?_, ?_⟩
  · intro cls c kw ats
    exact ⟨⟨rfl, rfl⟩, rfl⟩
  · intro st st' X h
    obtain ⟨st1, scores, c, q, hfb, hps, hc, hq, hst', hfst⟩ := fit_ok_spec h
    subst hst'
    exact ⟨rfl, predictScore_ok_backend hps⟩
  · intro st X
    exact fit_contamination st X
  · intro st st0 st2 ar hinv hsave hload
    cases hb : st.backendModel with
    | none =>
      unfold DetectorState.save at hsave
      rw [hb] at hsave
      simp at hsave
    | some b =>
      unfold DetectorState.save at hsave
      rw [hb] at hsave
      simp only [Except.ok.injEq] at hsave
      have hfit : st.isFitted = true := by
        have := hinv.2
        rw [hb] at this
        simpa using this.symm
      have hth : st.threshold.isSome = true := by rw [hinv.1, hfit]
      unfold DetectorState.load at hload
      rw [← hsave] at hload
      simp only [Except.ok.injEq] at hload
      subst hload
      refine ⟨⟨?_, rfl⟩, rfl⟩
      simpa using hth

/-- Evaluation of the demo fit: it succeeds with the state `demoFitted`. -/
lemma demo_fit_eval : freshDemo.fit demoFitX = (demoFitted, .ok demoFitted) := by
  norm_num [freshDemo, initState, demoFitX, DetectorState.fit,
    DetectorState.fitBackend, DetectorState.mergeParams, dictFind, dictRemove,
    dictUpdate, validateInput, validate2d, seqRow, List.mapM, List.mapM.loop,
    demoCls, demoBackendCls, demoBackend, DetectorState.predictScore,
    applyInvert, PyVal.asRat?, npQuantile, sortRats, insertSorted, Rat.floor,
    demoFitted]

/-- Witness for the amended C4: a concrete successful fit on the demo
adapter preserves the invariants and the contamination. -/
theorem c4_invariants_witness :
    WrapperInv (initState demoCls (.rat (1/10)) [] []) ∧
    WrapperInv ((freshDemo.fit demoFitX).1) ∧
    ((freshDemo.fit demoFitX).1).contamination = PyVal.rat (1/10) := by
  have h1 := (c4_invariants.1 demoCls (.rat (1/10)) [] []).1
  have hfit : (freshDemo.fit demoFitX).2 = .ok ((freshDemo.fit demoFitX).1) := by
    rw [demo_fit_eval]
  have h2 := c4_invariants.2.1 freshDemo _ demoFitX hfit
  have h3 := c4_invariants.2.2.1 freshDemo demoFitX
  exact ⟨h1, h2, by rw [h3]; rfl⟩

/-- Claim C5: when `fit` succeeds, the returned detector is the mutated
instance itself, its fitted flag is true, and its threshold is exactly the
`(1 - contamination)` quantile of the in-sample scores that
`predict_score` produces on the training data. -/
theorem c5_fit_postconditions (st st' : DetectorState) (X : Input)
    (h : (st.fit X).2 = .ok st') :
    st' = (st.fit X).1 ∧
    st'.isFitted = true ∧
    ∃ (scores : List Rat) (c : Rat),
      st'.predictScore X = .ok scores ∧
      st'.contamination.asRat? = some c ∧
      st'.threshold = npQuantile scores (1 - c) := by
  obtain ⟨st1, scores, c, q, hfb, hps, hc, hq, hst', hfst⟩ := fit_ok_spec h
  subst hst'
  refine ⟨hfst.symm, rfl, scores, c, ?_, hc, ?_⟩
  · exact (predictScore_congr st1 _ X rfl rfl).trans hps
  · rw [hq]

/-- Witness for C5: fitting the demo adapter on a concrete 1-D dataset
succeeds and the postconditions evaluate on it. -/
theorem c5_fit_postconditions_witness :
    (freshDemo.fit demoFitX).2 = .ok ((freshDemo.fit demoFitX).1) ∧
    ((freshDemo.fit demoFitX).1).isFitted = true ∧
    ((freshDemo.fit demoFitX).1).threshold = some (-(6/5 : Rat)) := by
  have hfit : (freshDemo.fit demoFitX).2 = .ok ((freshDemo.fit demoFitX).1) := by
    rw [demo_fit_eval]
  have h := c5_fit_postconditions freshDemo _ _ hfit
  exact ⟨hfit, h.2.1, by rw [demo_fit_eval]; rfl⟩

/-- Counterexample to claim C6: `c6State` is a fitted detector
(`_is_fitted = true`) with both the threshold argument and `threshold_`
null, yet `predict` raises `ModelNotFittedError` — not `ValueError` — since
`predict_score` runs before the threshold check and fails on the null
backend handle. -/
theorem c6_counterexample :
    c6State.isFitted = true ∧
    c6State.threshold = Option.none ∧
    c6State.predict (.twoD [[some 1]]) Option.none
      = Except.error PyErr.modelNotFitted ∧
    c6State.predict (.twoD [[some 1]]) Option.none
      ≠ Except.error PyErr.valueError := by
  refine ⟨rfl, rfl, rfl, ?_⟩
  intro h
  rw [show c6State.predict (.twoD [[some 1]]) Option.none
      = Except.error PyErr.modelNotFitted from rfl] at h
  simp at h

/-- Claim C6 as amended: a detector that was never fit and never loaded
(fitted flag false) always gets `ModelNotFittedError` from `predict`; on a
fitted detector, `predict` raises `ValueError` iff no threshold is
available from either source AND `predict_score` succeeded on the input
(when `predict_score` raises, its error propagates instead). -/
theorem c6_predict_error_cases (st : DetectorState) (X : Input)
    (t : Option Rat) :
    (st.isFitted = false → st.predict X t = .error .modelNotFitted) ∧
    (st.isFitted = true →
      (st.predict X t = .error .valueError ↔
        t = Option.none ∧ st.threshold = Option.none ∧
        ∃ s, st.predictScore X = .ok s)) := by
  constructor
  · intro h
    unfold DetectorState.predict
    rw [h]
    rfl
  · intro h
    unfold DetectorState.predict
    rw [h]
    simp only [Bool.true_eq_false, if_false]
    cases hps : st.predictScore X with
    | error e =>
      have hne : e ≠ PyErr.valueError := by
        intro he
        exact predictScore_ne_valueError st X (he ▸ hps)
      simp [hne]
    | ok s =>
      cases ht : t.orElse (fun _ => st.threshold) with
      | none =>
        cases t with
        | some tv0 => simp [Option.orElse] at ht
        | none =>
          have hth : st.threshold = Option.none := by
            simpa [Option.orElse] using ht
          simp [hth]
      | some tv =>
        cases t with
        | some tv0 => simp
        | none =>
          have hth : st.threshold = some tv := by
            simpa [Option.orElse] using ht
          simp [hth]

/-- Witness for the amended C6, part one on a fresh instance and part two
on the concrete fitted demo state whose threshold is set. -/
theorem c6_predict_error_cases_witness :
    freshDemo.predict demoFitX Option.none = .error .modelNotFitted ∧
    (demoFitted.predict demoFitX Option.none = .error .valueError ↔
      (Option.none : Option Rat) = Option.none ∧
      demoFitted.threshold = Option.none ∧
      ∃ s, demoFitted.predictScore demoFitX = .ok s) :=
  ⟨(c6_predict_error_cases freshDemo demoFitX Option.none).1 rfl,
   (c6_predict_error_cases demoFitted demoFitX Option.none).2 rfl⟩

/-- Claim C7: on a fitted detector with an available threshold, `predict`
returns one label per input sample, each label is 0 or 1, and label `i` is
1 exactly when score `i` strictly exceeds the threshold (ties are
classified 0). -/
theorem c7_predict_binarization (st : DetectorState) (X : Input)
    (t : Option Rat) (tv : Rat) (scores : List Rat)
    (hfit : st.isFitted = true)
    (hs : st.predictScore X = .ok scores)
    (hlen : scores.length = numSamples X)
    (ht : t.orElse (fun _ => st.threshold) = some tv) :
    ∃ ys : List Int, st.predict X t = .ok ys ∧
      ys.length = numSamples X ∧
      (∀ y ∈ ys, y = 0 ∨ y = 1) ∧
      (∀ i : Nat, i < ys.length →
        (ys.getD i 0 = 1 ↔ tv < scores.getD i 0)) := by
  refine ⟨scores.map (fun s => if tv < s then (1 : Int) else 0), ?_, ?_, ?_, ?_⟩
  · unfold DetectorState.predict
    rw [hfit]
    simp only [Bool.true_eq_false, if_false]
    rw [hs, ht]
  · simpa using hlen
  · intro y hy
    simp only [List.mem_map] at hy
    obtain ⟨s, -, hval⟩ := hy
    by_cases hlt : tv < s
    · right; rw [← hval]; simp [hlt]
    · left; rw [← hval]; simp [hlt]
  · intro i hi
    rw [List.length_map] at hi
    rw [List.getD_eq_getElem _ _ (by simpa using hi),
        List.getD_eq_getElem _ _ hi, List.getElem_map]
    by_cases hlt : tv < scores[i]
    · simp [hlt]
    · simp [hlt]

/-- Witness for C7 on the fitted demo state: scores on the training data
are `[-1, -2, -3]` and the threshold `-6/5` classifies exactly the first
sample as anomalous. -/
theorem c7_predict_binarization_witness :
    ∃ ys : List Int, demoFitted.predict demoFitX Option.none = .ok ys ∧
      ys.length = numSamples demoFitX ∧
      (∀ y ∈ ys, y = 0 ∨ y = 1) ∧
      (∀ i : Nat, i < ys.length →
        (ys.getD i 0 = 1 ↔
          (-(6/5) : Rat) < [(-1 : Rat), -2, -3].getD i 0)) := by
  have hs : demoFitted.predictScore demoFitX = .ok [-1, -2, -3] := by
    norm_num [demoFitted, demoFitX, DetectorState.predictScore, validateInput,
      validate2d, seqRow, List.mapM, List.mapM.loop, demoBackend, demoCls,
      applyInvert]
  exact c7_predict_binarization demoFitted demoFitX Option.none (-(6/5))
    [-1, -2, -3] rfl hs (by rfl) (by rfl)

/-- Claim C8: on an adapter holding a backend and given valid input,
`predict_score` dispatches to `score_samples` when it exists, otherwise to
`decision_function`, and raises `ConfigError` when neither exists; the
returned scores are the negation of the backend's native output exactly
when the inversion flag is set. -/
theorem c8_score_dispatch (st : DetectorState) (b : Backend) (X : Input)
    (Xv : List (List Rat))
    (hb : st.backendModel = some b) (hX : validateInput X = .ok Xv) :
    (∀ f, b.scoreSamples? = some f →
      st.predictScore X =
        .ok (if st.cls.invertScore then (f Xv).map (fun x => -x) else f Xv)) ∧
    (b.scoreSamples? = Option.none → ∀ g, b.decisionFunction? = some g →
      st.predictScore X =
        .ok (if st.cls.invertScore then (g Xv).map (fun x => -x) else g Xv)) ∧
    (b.scoreSamples? = Option.none → b.decisionFunction? = Option.none →
      st.predictScore X = .error .configError) := by
  refine ⟨?_, ?_, ?_⟩
  · intro f hf
    simp [DetectorState.predictScore, hX, hb, hf, applyInvert]
  · intro hn g hg
    simp [DetectorState.predictScore, hX, hb, hn, hg, applyInvert]
  · intro hn hn'
    simp [DetectorState.predictScore, hX, hb, hn, hn']

/-- Witness for C8 on the demo backend (which has `score_samples`) and a
concrete valid input. -/
theorem c8_score_dispatch_witness :
    demoFitted.predictScore (.twoD [[some 2, some 3]]) = .ok [-5] := by
  have hf : demoBackend.scoreSamples? =
      some (fun m => m.map (fun row => row.foldl (· + ·) 0)) := rfl
  have h := (c8_score_dispatch demoFitted demoBackend (.twoD [[some 2, some 3]])
    [[2, 3]] rfl (by norm_num [validateInput, validate2d, seqRow, List.mapM,
      List.mapM.loop])).1 _ hf
  rw [h]
  norm_num [demoFitted, demoCls]

/-- Claim C3: saving a fitted detector and loading the archive into a
freshly constructed detector of the same algorithm restores the exact
threshold and makes `predict_score` agree exactly (hence within relative
tolerance `1e-5`) on every input. -/
theorem c3_roundtrip (st : DetectorState) (b : Backend)
    (c0 : PyVal) (kw0 ats0 : List (String × PyVal))
    (hfit : st.isFitted = true) (hb : st.backendModel = some b) :
    ∃ ar : Archive, st.save = .ok ar ∧
      (((initState st.cls c0 kw0 ats0).load ar).2 =
        .ok ((initState st.cls c0 kw0 ats0).load ar).1) ∧
      (((initState st.cls c0 kw0 ats0).load ar).1.threshold = st.threshold) ∧
      (∀ X : Input,
        ((initState st.cls c0 kw0 ats0).load ar).1.predictScore X =
          st.predictScore X) ∧
      (∀ (X : Input) (s s' : List Rat),
        st.predictScore X = .ok s →
        ((initState st.cls c0 kw0 ats0).load ar).1.predictScore X = .ok s' →
        s'.length = s.length ∧
        ∀ i : Nat,
          |s'.getD i 0 - s.getD i 0| ≤ (1/100000 : Rat) * |s.getD i 0|) := by
  have hsave : st.save = .ok
      { meta := { className := st.cls.name
                  contamination := st.contamination
                  threshold := st.threshold
                  version := "0.1.0" }
        attributes? := some { contamination := st.contamination
                              threshold := st.threshold
                              isFitted := st.isFitted
                              backend_options := st.backend_options
                              kwargs := st.kwargs
                              attrs := st.attrs }
        backendBlob := some b } := by
    unfold DetectorState.save
    rw [hb]
  refine ⟨_, hsave, rfl, rfl, ?_, ?_⟩
  · intro X
    exact predictScore_congr st _ X (by rw [hb]; rfl) rfl
  · intro X s s' hs hs'
    have heq : s' = s := by
      have hps := predictScore_congr st
        ((initState st.cls c0 kw0 ats0).load
          { meta := { className := st.cls.name
                      contamination := st.contamination
                      threshold := st.threshold
                      version := "0.1.0" }
            attributes? := some { contamination := st.contamination
                                  threshold := st.threshold
                                  isFitted := st.isFitted
                                  backend_options := st.backend_options
                                  kwargs := st.kwargs
                                  attrs := st.attrs }
            backendBlob := some b }).1 X (by rw [hb]; rfl) rfl
      rw [hps, hs] at hs'
      exact (Except.ok.injEq _ _ ▸ hs').symm ▸ rfl
    subst heq
    refine ⟨rfl, ?_⟩
    intro i
    simp only [sub_self, abs_zero]
    positivity

/-- Witness for C3: the fitted demo detector round-trips into a fresh demo
instance. -/
theorem c3_roundtrip_witness :
    ∃ ar : Archive, demoFitted.save = .ok ar ∧
      (((initState demoFitted.cls (.rat (1/10)) [] []).load ar).2 =
        .ok ((initState demoFitted.cls (.rat (1/10)) [] []).load ar).1) ∧
      (((initState demoFitted.cls (.rat (1/10)) [] []).load ar).1.threshold =
        demoFitted.threshold) ∧
      (∀ X : Input,
        ((initState demoFitted.cls (.rat (1/10)) [] []).load ar).1.predictScore X
          = demoFitted.predictScore X) ∧
      (∀ (X : Input) (s s' : List Rat),
        demoFitted.predictScore X = .ok s →
        ((initState demoFitted.cls (.rat (1/10)) [] []).load ar).1.predictScore X
          = .ok s' →
        s'.length = s.length ∧
        ∀ i : Nat,
          |s'.getD i 0 - s.getD i 0| ≤ (1/100000 : Rat) * |s.getD i 0|) :=
  c3_roundtrip demoFitted demoBackend (.rat (1/10)) [] [] rfl rfl

/-- Claim C9: resolving an unregistered name raises `ConfigError` carrying
the list of all currently registered algorithm names; resolving the
registered name looks up the `{name}Adapter` class in the registered module
and returns a new instance constructed with the given keyword arguments. -/
theorem c9_factory (nm : String) (kwargs : List (String × PyVal)) :
    (¬ nm ∈ REGISTRY.map (fun p => p.1) →
      get_detector nm kwargs =
        .error (.configError (REGISTRY.map (fun p => p.1)))) ∧
    (REGISTRY.map (fun p => p.1) = ["IsolationForest"]) ∧
    (get_detector ("IsolationForest") kwargs =
      .ok (isolationForestAdapterInit kwargs)) := by
  refine ⟨?_, rfl, rfl⟩
  intro hn
  have hfind : REGISTRY.find? (fun p => p.1 = nm) = Option.none := by
    by_cases hnm : nm = "IsolationForest"
    · subst hnm
      exact absurd (by simp [REGISTRY]) hn
    · have h1 : ("IsolationForest" : String) ≠ nm := fun h => hnm h.symm
      simp [REGISTRY, List.find?, h1]
  unfold get_detector
  rw [hfind]

/-- Witness for C9: the unregistered name `Foo` is rejected with the full
list of registered names, and the registered name resolves to an
`IsolationForestAdapter` instance. -/
theorem c9_factory_witness :
    get_detector ("Foo") [] =
      .error (.configError ["IsolationForest"]) ∧
    get_detector ("IsolationForest") [] =
      .ok (isolationForestAdapterInit []) := by
  have h := c9_factory ("Foo") []
  have h1 := h.1 (by simp [REGISTRY])
  rw [h.2.1] at h1
  exact ⟨h1, (c9_factory ("Foo") []).2.2⟩

end OmniAD
